import Mathlib

/-!
# Eco-Sync carbon-emissions scenario engine: verification

Shallow embedding of `dashboard/lib/scenarioCalculator.ts` and of the
intent-extraction logic in
`dashboard/components/SustainabilityConsultant.tsx` (function
`detectAndCalculateScenario`), together with theorems settling the claims
about the engine.

Modeling conventions:
* JavaScript numbers are modeled as exact rationals (`ℚ`).  Every numeric
  literal appearing in the source is decimal, so the constants embed exactly.
* A JavaScript division whose denominator is `0` yields `NaN` (if the
  numerator is also `0`) or `±Infinity`; in this code base the only such
  divisions arise with numerator `0`, producing `NaN`.  Non-finite results
  are modeled by `none` in `Option ℚ`, and `NaN`-propagation through
  arithmetic by `Option.map`.
* `Array.prototype.reduce((s, x) => s + f(x), 0)` is modeled as
  `(l.map f).sum`, and the source's local `let` blocks become named
  top-level definitions so each field of the result can be reasoned about.
* JavaScript string operations are modeled on the character-list
  representation of `String`.
-/

inductive Transport
  | air
  | sea
  | land

deriving instance DecidableEq for Transport

/-- The union type `'air' | 'sea' | 'land' | 'all'` used for the
`sourceTransport` parameter (the `null` case is `Option.none` around it). -/
inductive SourceSel
  | all
  | mode (m : Transport)

deriving instance DecidableEq for SourceSel

/-- `interface Log` from `scenarioCalculator.ts`. -/
structure Log where
  id : String
  origin : String
  destination : String
  weight_kg : ℚ
  transport_type : Transport
  timestamp : Option String

deriving instance DecidableEq for Log

/-- EPA emission factors (g CO2e per kg per km), `EMISSION_FACTORS`. -/
def EMISSION_FACTORS : Transport → ℚ
  | Transport.air => 0.255
  | Transport.sea => 0.0112
  | Transport.land => 0.0613

/-- `DISTANCE_LOOKUP`, the route → km table. -/
def DISTANCE_LOOKUP : List (String × ℚ) :=
  [(r"Shanghai, China-Los Angeles, USA", 12000),
   (r"Tokyo, Japan-New York, USA", 10800),
   (r"Berlin, Germany-Paris, France", 880),
   (r"Singapore, Singapore-Dubai, UAE", 3600),
   (r"Mumbai, India-London, UK", 7200),
   (r"Mexico City, Mexico-Toronto, Canada", 2100),
   (r"Rotterdam, Netherlands-Hamburg, Germany", 450)]

/-- JavaScript division; a zero denominator produces a non-finite value
(`NaN` at every call site in this code base), modeled as `none`. -/
def jsDiv (a b : ℚ) : Option ℚ := if b = 0 then none else some (a / b)

def dashStr : String := "-"

/-- `getDistance`: try the ordered key, then the reversed key, then the
5000 km fallback.  The source tests truthiness of the looked-up value; no
distance in the table is `0`, so truthiness coincides with presence. -/
def getDistance (origin destination : String) : ℚ :=
  match DISTANCE_LOOKUP.lookup (origin ++ dashStr ++ destination) with
  | some d => d
  | none =>
    match DISTANCE_LOOKUP.lookup (destination ++ dashStr ++ origin) with
    | some d => d
    | none => 5000

/-- The per-record emission formula
`(log.weight_kg * distance * factor) / 1000`, inlined at each use site in
the source. -/
def emissionsOf (log : Log) : ℚ :=
  log.weight_kg * getDistance log.origin log.destination
    * EMISSION_FACTORS log.transport_type / 1000

/-- `calculateTotalEmissions`. -/
def calculateTotalEmissions (logs : List Log) : ℚ := (logs.map emissionsOf).sum

/-- The predicate of the `logs.filter` selecting affected routes inside
`calculateScenarioImpact`. -/
def scenarioFilter (sourceTransport : Option SourceSel)
    (specificRouteId : Option String) (log : Log) : Bool :=
  let ridMismatch : Bool :=
    match specificRouteId with
    | some rid => log.id != rid
    | none => false
  let sourceMismatch : Bool :=
    match sourceTransport with
    | some (SourceSel.mode m) => decide (log.transport_type ≠ m)
    | _ => false
  if ridMismatch then false
  else if sourceMismatch then false
  else true

/-- The `affectedRoutes` local of `calculateScenarioImpact`, including the
fall-back to the whole record set when the filter matches nothing. -/
def affectedRoutesOf (logs : List Log) (sourceTransport : Option SourceSel)
    (specificRouteId : Option String) : List Log :=
  let filtered := logs.filter (scenarioFilter sourceTransport specificRouteId)
  if filtered.isEmpty then logs else filtered

/-- The `previewEmissions` local of `calculateScenarioImpact`: target-mode
substitution when a target is set, blanket sea-factor optimization when the
source is `'all'`, otherwise the unchanged baseline. -/
def previewEmissionsOf (logs : List Log) (sourceTransport : Option SourceSel)
    (targetTransport : Option Transport) (specificRouteId : Option String) : ℚ :=
  let currentEmissions := calculateTotalEmissions logs
  let affected := affectedRoutesOf logs sourceTransport specificRouteId
  match targetTransport with
  | some tgt =>
    let affectedEmissions := (affected.map (fun log =>
      log.weight_kg * getDistance log.origin log.destination
        * EMISSION_FACTORS tgt / 1000)).sum
    let originalAffectedEmissions := (affected.map emissionsOf).sum
    (currentEmissions - originalAffectedEmissions) + affectedEmissions
  | none =>
    if sourceTransport = some SourceSel.all then
      (affected.map (fun log =>
        log.weight_kg * getDistance log.origin log.destination
          * EMISSION_FACTORS Transport.sea / 1000)).sum
      + ((logs.filter (fun log =>
          ! affected.any (fun ar => ar.id == log.id))).map emissionsOf).sum
    else currentEmissions

/-- `delta = previewEmissions - currentEmissions`. -/
def deltaOf (logs : List Log) (sourceTransport : Option SourceSel)
    (targetTransport : Option Transport) (specificRouteId : Option String) : ℚ :=
  previewEmissionsOf logs sourceTransport targetTransport specificRouteId
    - calculateTotalEmissions logs

/-- `percentChange = (delta / currentEmissions) * 100`; `NaN` when the
baseline is zero, modeled as `none`. -/
def percentChangeOf (logs : List Log) (sourceTransport : Option SourceSel)
    (targetTransport : Option Transport) (specificRouteId : Option String) :
    Option ℚ :=
  (jsDiv (deltaOf logs sourceTransport targetTransport specificRouteId)
    (calculateTotalEmissions logs)).map (fun q => q * 100)

/-- `previewScore = ((100 - (previewEmissions / maxEmissions) * 100) * 100) / 100`
with `maxEmissions = Math.max(currentEmissions, previewEmissions)`. -/
def previewScoreOf (logs : List Log) (sourceTransport : Option SourceSel)
    (targetTransport : Option Transport) (specificRouteId : Option String) :
    Option ℚ :=
  let previewEmissions :=
    previewEmissionsOf logs sourceTransport targetTransport specificRouteId
  let maxEmissions := max (calculateTotalEmissions logs) previewEmissions
  (jsDiv previewEmissions maxEmissions).map
    (fun q => ((100 - q * 100) * 100) / 100)

def emptyStr : String := ""

def dotStr : String := "."

def nanStr : String := "NaN"

/-- JavaScript `Number.prototype.toFixed(1)`: the nearest multiple of
`1/10`, ties resolved toward the larger value; `NaN` prints as `"NaN"`. -/
def toFixed1 : Option ℚ → String
  | none => nanStr
  | some q =>
    let n : Int := ⌊q * 10 + 1 / 2⌋
    (if n < 0 then dashStr else emptyStr)
      ++ toString (n.natAbs / 10) ++ dotStr ++ toString (n.natAbs % 10)

def commaStr : String := ","

def colonSpaceStr : String := ": "

def arrowStr : String := " → "

def openParenStr : String := " ("

def percentSpaceStr : String := "% "

def closeParenStr : String := ")"

def increaseStr : String := "increase"

def reductionStr : String := "reduction"

/-- One element of the `affectedRoutesList` built by
`calculateScenarioImpact`:
`` `${id}: ${origin-city} → ${destination-city} (${pct}% ${word})` ``. -/
def routeLabel (targetTransport : Option Transport) (log : Log) : String :=
  let distance := getDistance log.origin log.destination
  let currentEmis :=
    log.weight_kg * distance * EMISSION_FACTORS log.transport_type / 1000
  let newEmis :=
    match targetTransport with
    | some tgt => log.weight_kg * distance * EMISSION_FACTORS tgt / 1000
    | none => currentEmis
  let delta := newEmis - currentEmis
  log.id ++ colonSpaceStr ++ (log.origin.splitOn commaStr).headD emptyStr
    ++ arrowStr ++ (log.destination.splitOn commaStr).headD emptyStr
    ++ openParenStr
    ++ toFixed1 ((jsDiv delta currentEmis).map (fun q => q * 100))
    ++ percentSpaceStr
    ++ (if 0 < delta then increaseStr else reductionStr) ++ closeParenStr

def pluralS : String := "s"

/-- `generateRecommendation`: the five literal message templates.  In the
source `isImprovement` is `percentChange < 0`, which is `false` for `NaN`;
the `none` branch models that. -/
def generateRecommendation (targetTransport : Option Transport)
    (sourceTransport : Option SourceSel) (percentChange : Option ℚ)
    (affectedCount : Nat) : String :=
  let isImprovement : Bool :=
    match percentChange with
    | some q => decide (q < 0)
    | none => false
  let absPct := toFixed1 (percentChange.map (fun q => |q|))
  let pct := toFixed1 percentChange
  let sSuffix := if 1 < affectedCount then pluralS else emptyStr
  if isImprovement then
    if targetTransport = some Transport.sea then
      "Switching " ++ toString affectedCount ++ " shipment" ++ sSuffix
        ++ " to sea transport would reduce emissions by " ++ absPct
        ++ "%. This is an excellent strategic move—sea freight is 95%+ more efficient than air, and typically costs less. Consider consolidating shipments to maximize savings."
    else if targetTransport = some Transport.land then
      "Shifting to land transport would reduce emissions by " ++ absPct
        ++ "%. This works well for regional routes. Optimize your warehousing network to enable more ground-based distribution."
    else
      "This change would reduce your carbon footprint by " ++ absPct
        ++ "%. The environmental and cost benefits make this a strong recommendation. Implement when feasible."
  else
    if targetTransport = some Transport.air then
      "⚠️ Switching to air would increase emissions by " ++ pct
        ++ "%. This is generally not recommended unless speed is critical. For urgent shipments, consider consolidating to reduce frequency."
    else
      "⚠️ This scenario would increase emissions by " ++ pct
        ++ "%. Focus on reduction strategies instead. Ask me about optimizing your most carbon-intensive routes."

/-- `ScenarioResult` (fields in source order; `percentChange` and
`previewScore` carry `none` when the JavaScript value is `NaN`). -/
structure ScenarioResult where
  originalEmissions : ℚ
  previewEmissions : ℚ
  delta : ℚ
  percentChange : Option ℚ
  previewScore : Option ℚ
  affectedRoutes : List String
  recommendation : String

/-- `calculateScenarioImpact` assembled from the locals above. -/
def calculateScenarioImpact (logs : List Log) (sourceTransport : Option SourceSel)
    (targetTransport : Option Transport) (specificRouteId : Option String) :
    ScenarioResult :=
  ⟨calculateTotalEmissions logs,
   previewEmissionsOf logs sourceTransport targetTransport specificRouteId,
   deltaOf logs sourceTransport targetTransport specificRouteId,
   percentChangeOf logs sourceTransport targetTransport specificRouteId,
   previewScoreOf logs sourceTransport targetTransport specificRouteId,
   (affectedRoutesOf logs sourceTransport specificRouteId).map
     (routeLabel targetTransport),
   generateRecommendation targetTransport sourceTransport
     (percentChangeOf logs sourceTransport targetTransport specificRouteId)
     (affectedRoutesOf logs sourceTransport specificRouteId).length⟩

/-- The sea record of the spec's concrete scenario
(`SC001`, Shanghai → Los Angeles, 15000 kg, 12000 km). -/
def recSea : Log :=
  ⟨r"SC001", r"Shanghai, China", r"Los Angeles, USA", 15000, Transport.sea, none⟩

/-- The air record of the spec's concrete scenario
(`SC002`, Tokyo → New York, 8500 kg, 10800 km). -/
def recAir : Log :=
  ⟨r"SC002", r"Tokyo, Japan", r"New York, USA", 8500, Transport.air, none⟩

/-- The land record of the spec's concrete scenario
(`SC003`, Berlin → Paris, 2200 kg, 880 km). -/
def recLand : Log :=
  ⟨r"SC003", r"Berlin, Germany", r"Paris, France", 2200, Transport.land, none⟩

def sampleThreeRecords : List Log := [recSea, recAir, recLand]

lemma getDistance_shanghai_la :
    getDistance (r"Shanghai, China") (r"Los Angeles, USA") = 12000 := by decide

lemma getDistance_tokyo_ny :
    getDistance (r"Tokyo, Japan") (r"New York, USA") = 10800 := by decide

lemma getDistance_berlin_paris :
    getDistance (r"Berlin, Germany") (r"Paris, France") = 880 := by decide

/-- C1 (counterexample): the claimed per-record emissions `1133.4` and
`11.88` kg and the claimed baseline `3161.28` kg are all wrong for the
code's formula `weight × distance × factor / 1000`: the air record yields
`23409` and the land record `118.6768`. -/
theorem C1_counterexample :
    emissionsOf recAir ≠ (1133.4 : ℚ) ∧ emissionsOf recLand ≠ (11.88 : ℚ) ∧
      calculateTotalEmissions sampleThreeRecords ≠ (3161.28 : ℚ) := by
  refine ⟨?_, ?_, ?_⟩ <;>
    simp only [emissionsOf, calculateTotalEmissions, sampleThreeRecords,
      recSea, recAir, recLand, List.map_cons, List.map_nil, List.sum_cons,
      List.sum_nil, getDistance_shanghai_la, getDistance_tokyo_ny,
      getDistance_berlin_paris, EMISSION_FACTORS] <;>
    norm_num

/-- C1 (amended): for the three concrete records {sea, 15000 kg, 12000 km},
{air, 8500 kg, 10800 km}, {land, 2200 kg, 880 km} under the reference
factors, the per-record emissions are `2016.0`, `23409.0` and `118.6768`
kg CO2e, and the total over the three records is `25543.6768` kg. -/
theorem C1_concrete_scenario_emissions :
    emissionsOf recSea = (2016 : ℚ) ∧ emissionsOf recAir = (23409 : ℚ) ∧
      emissionsOf recLand = (118.6768 : ℚ) ∧
      calculateTotalEmissions sampleThreeRecords = (25543.6768 : ℚ) := by
  refine ⟨?_, ?_, ?_, ?_⟩ <;>
    simp only [emissionsOf, calculateTotalEmissions, sampleThreeRecords,
      recSea, recAir, recLand, List.map_cons, List.map_nil, List.sum_cons,
      List.sum_nil, getDistance_shanghai_la, getDistance_tokyo_ny,
      getDistance_berlin_paris, EMISSION_FACTORS] <;>
    norm_num

/-- C2: whenever the baseline `original_emissions` is zero, the code divides
by it anyway, so `percent_change` is the non-numeric JavaScript value `NaN`
(modeled `none`) rather than any explicitly defined numeric result or
error sentinel. -/
theorem C2_zero_baseline_percent_change_nan (logs : List Log)
    (sourceTransport : Option SourceSel) (targetTransport : Option Transport)
    (specificRouteId : Option String)
    (h : calculateTotalEmissions logs = 0) :
    (calculateScenarioImpact logs sourceTransport targetTransport
        specificRouteId).percentChange = none := by
  simp [calculateScenarioImpact, percentChangeOf, jsDiv, h]

/-- Witness for C2 at the concrete degenerate input: the empty record set
has baseline `0`, and the returned `percent_change` is `NaN`. -/
theorem C2_zero_baseline_percent_change_nan_witness :
    calculateTotalEmissions ([] : List Log) = 0 ∧
      (calculateScenarioImpact [] none none none).percentChange = none :=
  ⟨rfl, C2_zero_baseline_percent_change_nan [] none none none rfl⟩

@[simp] lemma calcImpact_originalEmissions (logs : List Log)
    (s : Option SourceSel) (t : Option Transport) (rid : Option String) :
    (calculateScenarioImpact logs s t rid).originalEmissions
      = calculateTotalEmissions logs := rfl

@[simp] lemma calcImpact_previewEmissions (logs : List Log)
    (s : Option SourceSel) (t : Option Transport) (rid : Option String) :
    (calculateScenarioImpact logs s t rid).previewEmissions
      = previewEmissionsOf logs s t rid := rfl

@[simp] lemma calcImpact_delta (logs : List Log)
    (s : Option SourceSel) (t : Option Transport) (rid : Option String) :
    (calculateScenarioImpact logs s t rid).delta = deltaOf logs s t rid := rfl

@[simp] lemma calcImpact_percentChange (logs : List Log)
    (s : Option SourceSel) (t : Option Transport) (rid : Option String) :
    (calculateScenarioImpact logs s t rid).percentChange
      = percentChangeOf logs s t rid := rfl

@[simp] lemma calcImpact_previewScore (logs : List Log)
    (s : Option SourceSel) (t : Option Transport) (rid : Option String) :
    (calculateScenarioImpact logs s t rid).previewScore
      = previewScoreOf logs s t rid := rfl

@[simp] lemma calcImpact_affectedRoutes (logs : List Log)
    (s : Option SourceSel) (t : Option Transport) (rid : Option String) :
    (calculateScenarioImpact logs s t rid).affectedRoutes
      = (affectedRoutesOf logs s rid).map (routeLabel t) := rfl

lemma EMISSION_FACTORS_pos (m : Transport) : 0 < EMISSION_FACTORS m := by
  cases m <;> norm_num [EMISSION_FACTORS]

lemma DISTANCE_LOOKUP_values_pos : ∀ p ∈ DISTANCE_LOOKUP, (0 : ℚ) < p.2 := by
  intro p hp
  fin_cases hp <;> norm_num

lemma mem_of_lookup_eq_some {ps : List (String × ℚ)} {k : String} {v : ℚ}
    (h : ps.lookup k = some v) : (k, v) ∈ ps := by
  induction ps with
  | nil => simp [List.lookup] at h
  | cons p ps ih =>
    rw [List.lookup] at h
    split at h
    · rename_i hb
      simp only [Option.some.injEq] at h
      have hk : k = p.1 := eq_of_beq hb
      have hp : p = (k, v) := by
        obtain ⟨a, b⟩ := p
        simp only [Prod.mk.injEq]
        exact ⟨hk.symm, h⟩
      rw [hp]
      exact List.mem_cons_self _ _
    · exact List.mem_cons_of_mem _ (ih h)

lemma getDistance_pos (a b : String) : 0 < getDistance a b := by
  unfold getDistance
  cases h1 : DISTANCE_LOOKUP.lookup (a ++ dashStr ++ b) with
  | some d =>
    simpa using DISTANCE_LOOKUP_values_pos _ (mem_of_lookup_eq_some h1)
  | none =>
    cases h2 : DISTANCE_LOOKUP.lookup (b ++ dashStr ++ a) with
    | some d =>
      simpa using DISTANCE_LOOKUP_values_pos _ (mem_of_lookup_eq_some h2)
    | none => norm_num

lemma emissionsOf_nonneg {log : Log} (h : 0 ≤ log.weight_kg) :
    0 ≤ emissionsOf log := by
  unfold emissionsOf
  have hd := (getDistance_pos log.origin log.destination).le
  have hf := (EMISSION_FACTORS_pos log.transport_type).le
  have : (0 : ℚ) ≤ (1000 : ℚ) := by norm_num
  exact div_nonneg (mul_nonneg (mul_nonneg h hd) hf) this

lemma uniform_term_nonneg {log : Log} (m : Transport) (h : 0 ≤ log.weight_kg) :
    0 ≤ log.weight_kg * getDistance log.origin log.destination
      * EMISSION_FACTORS m / 1000 := by
  have hd := (getDistance_pos log.origin log.destination).le
  have hf := (EMISSION_FACTORS_pos m).le
  have h1000 : (0 : ℚ) ≤ (1000 : ℚ) := by norm_num
  exact div_nonneg (mul_nonneg (mul_nonneg h hd) hf) h1000

lemma affectedRoutesOf_eq (logs : List Log) (s : Option SourceSel)
    (rid : Option String) :
    affectedRoutesOf logs s rid
      = if (logs.filter (scenarioFilter s rid)).isEmpty then logs
        else logs.filter (scenarioFilter s rid) := rfl

lemma previewEmissionsOf_some (logs : List Log) (s : Option SourceSel)
    (tgt : Transport) (rid : Option String) :
    previewEmissionsOf logs s (some tgt) rid
      = (calculateTotalEmissions logs
          - ((affectedRoutesOf logs s rid).map emissionsOf).sum)
        + ((affectedRoutesOf logs s rid).map (fun log =>
            log.weight_kg * getDistance log.origin log.destination
              * EMISSION_FACTORS tgt / 1000)).sum := rfl

lemma previewEmissionsOf_all_none (logs : List Log) (rid : Option String) :
    previewEmissionsOf logs (some SourceSel.all) none rid
      = ((affectedRoutesOf logs (some SourceSel.all) rid).map (fun log =>
          log.weight_kg * getDistance log.origin log.destination
            * EMISSION_FACTORS Transport.sea / 1000)).sum
        + ((logs.filter (fun log =>
            ! (affectedRoutesOf logs (some SourceSel.all) rid).any
              (fun ar => ar.id == log.id))).map emissionsOf).sum := by
  unfold previewEmissionsOf
  simp

lemma previewEmissionsOf_none_not_all (logs : List Log) (s : Option SourceSel)
    (rid : Option String) (h : s ≠ some SourceSel.all) :
    previewEmissionsOf logs s none rid = calculateTotalEmissions logs := by
  unfold previewEmissionsOf
  simp [h]

lemma mem_affectedRoutesOf {l : Log} {logs : List Log} {s : Option SourceSel}
    {rid : Option String} (h : l ∈ affectedRoutesOf logs s rid) : l ∈ logs := by
  rw [affectedRoutesOf_eq] at h
  split at h
  · exact h
  · exact (List.mem_filter.mp h).1

lemma totalEmissions_nonneg {logs : List Log}
    (hw : ∀ l ∈ logs, 0 ≤ l.weight_kg) : 0 ≤ calculateTotalEmissions logs := by
  unfold calculateTotalEmissions
  refine List.sum_nonneg ?_
  intro x hx
  obtain ⟨l, hl, rfl⟩ := List.mem_map.mp hx
  exact emissionsOf_nonneg (hw l hl)

lemma affected_original_sum_le {logs : List Log} {s : Option SourceSel}
    {rid : Option String} (hw : ∀ l ∈ logs, 0 ≤ l.weight_kg) :
    ((affectedRoutesOf logs s rid).map emissionsOf).sum
      ≤ calculateTotalEmissions logs := by
  rw [affectedRoutesOf_eq]
  unfold calculateTotalEmissions
  split
  · exact le_refl _
  · refine List.Sublist.sum_le_sum
      ((List.filter_sublist logs).map emissionsOf) ?_
    intro x hx
    obtain ⟨l, hl, rfl⟩ := List.mem_map.mp hx
    exact emissionsOf_nonneg (hw l hl)

lemma previewEmissions_nonneg {logs : List Log} (s : Option SourceSel)
    (t : Option Transport) (rid : Option String)
    (hw : ∀ l ∈ logs, 0 ≤ l.weight_kg) :
    0 ≤ previewEmissionsOf logs s t rid := by
  cases t with
  | some tgt =>
    have h1 : ((affectedRoutesOf logs s rid).map emissionsOf).sum
        ≤ calculateTotalEmissions logs := affected_original_sum_le hw
    have h2 : 0 ≤ ((affectedRoutesOf logs s rid).map (fun log =>
        log.weight_kg * getDistance log.origin log.destination
          * EMISSION_FACTORS tgt / 1000)).sum := by
      refine List.sum_nonneg ?_
      intro x hx
      obtain ⟨l, hl, rfl⟩ := List.mem_map.mp hx
      exact uniform_term_nonneg tgt (hw l (mem_affectedRoutesOf hl))
    rw [previewEmissionsOf_some]
    linarith
  | none =>
    by_cases hs : s = some SourceSel.all
    · subst hs
      have h1 : 0 ≤ ((affectedRoutesOf logs (some SourceSel.all) rid).map
          (fun log => log.weight_kg * getDistance log.origin log.destination
            * EMISSION_FACTORS Transport.sea / 1000)).sum := by
        refine List.sum_nonneg ?_
        intro x hx
        obtain ⟨l, hl, rfl⟩ := List.mem_map.mp hx
        exact uniform_term_nonneg Transport.sea (hw l (mem_affectedRoutesOf hl))
      have h2 : 0 ≤ ((logs.filter (fun log =>
          ! (affectedRoutesOf logs (some SourceSel.all) rid).any
            (fun ar => ar.id == log.id))).map emissionsOf).sum := by
        refine List.sum_nonneg ?_
        intro x hx
        obtain ⟨l, hl, rfl⟩ := List.mem_map.mp hx
        exact emissionsOf_nonneg (hw l (List.mem_filter.mp hl).1)
      rw [previewEmissionsOf_all_none]
      linarith
    · rw [previewEmissionsOf_none_not_all logs s rid hs]
      exact totalEmissions_nonneg hw

/-- C3 (counterexample): for the empty record set (a legal record set, with
baseline `0`) the returned `preview_score` is the non-numeric JavaScript
value `NaN` (modeled `none`); it neither equals the claimed formula value
nor lies in `[0, 100]`. -/
theorem C3_counterexample :
    (calculateScenarioImpact [] none none none).previewScore = none := by
  simp [calculateScenarioImpact, previewScoreOf, previewEmissionsOf,
    affectedRoutesOf, calculateTotalEmissions, jsDiv]

/-- C3 (amended): for every record set with nonnegative weights and strictly
positive total baseline emissions, and every scenario request, the returned
`preview_score` is the numeric value
`100 − (preview_emissions / max(original_emissions, preview_emissions)) × 100`
and lies in `[0, 100]`; with a zero baseline the score is `NaN` instead. -/
theorem C3_previewScore_formula_and_range (logs : List Log)
    (s : Option SourceSel) (t : Option Transport) (rid : Option String)
    (hw : ∀ l ∈ logs, 0 ≤ l.weight_kg)
    (hpos : 0 < calculateTotalEmissions logs) :
    ∃ q, (calculateScenarioImpact logs s t rid).previewScore = some q ∧
      q = 100 - (calculateScenarioImpact logs s t rid).previewEmissions
        / max (calculateScenarioImpact logs s t rid).originalEmissions
            (calculateScenarioImpact logs s t rid).previewEmissions * 100 ∧
      0 ≤ q ∧ q ≤ 100 := by
  have hp : 0 ≤ previewEmissionsOf logs s t rid :=
    previewEmissions_nonneg s t rid hw
  have hm : 0 < max (calculateTotalEmissions logs)
      (previewEmissionsOf logs s t rid) :=
    lt_of_lt_of_le hpos (le_max_left _ _)
  have hq1 : previewEmissionsOf logs s t rid
      / max (calculateTotalEmissions logs) (previewEmissionsOf logs s t rid)
      ≤ 1 := (div_le_one hm).mpr (le_max_right _ _)
  have hq0 : 0 ≤ previewEmissionsOf logs s t rid
      / max (calculateTotalEmissions logs) (previewEmissionsOf logs s t rid) :=
    div_nonneg hp hm.le
  refine ⟨100 - previewEmissionsOf logs s t rid
      / max (calculateTotalEmissions logs) (previewEmissionsOf logs s t rid)
      * 100, ?_, by simp, by linarith, by linarith⟩
  simp only [calcImpact_previewScore, previewScoreOf, jsDiv, if_neg hm.ne',
    Option.map_some']
  congr 1
  ring

/-- Witness for C3 at a concrete input: one sea record from the sample data
and the request "switch everything to air". -/
theorem C3_previewScore_formula_and_range_witness :
    (∀ l ∈ [recSea], 0 ≤ l.weight_kg) ∧
      0 < calculateTotalEmissions [recSea] ∧
      (∃ q, (calculateScenarioImpact [recSea] none (some Transport.air)
          none).previewScore = some q ∧
        q = 100 - (calculateScenarioImpact [recSea] none (some Transport.air)
            none).previewEmissions
          / max (calculateScenarioImpact [recSea] none (some Transport.air)
              none).originalEmissions
            (calculateScenarioImpact [recSea] none (some Transport.air)
              none).previewEmissions * 100 ∧
        0 ≤ q ∧ q ≤ 100) := by
  have hw : ∀ l ∈ [recSea], 0 ≤ l.weight_kg := by
    intro l hl
    simp only [List.mem_singleton] at hl
    subst hl
    norm_num [recSea]
  have hpos : 0 < calculateTotalEmissions [recSea] := by
    simp only [calculateTotalEmissions, List.map_cons, List.map_nil,
      List.sum_cons, List.sum_nil, emissionsOf, recSea,
      getDistance_shanghai_la, EMISSION_FACTORS]
    norm_num
  exact ⟨hw, hpos,
    C3_previewScore_formula_and_range [recSea] none (some Transport.air) none
      hw hpos⟩

/-- The lowest emission factor among all modes of the factor table. -/
def lowestFactorAmongAllModes : ℚ :=
  min (min (EMISSION_FACTORS Transport.air) (EMISSION_FACTORS Transport.sea))
    (EMISSION_FACTORS Transport.land)

/-- Refinement-side formulation of the claim/spec wording for blanket
optimization: every affected record is recomputed with the single lowest
factor among all modes, unaffected records keep their actual emissions. -/
def specBlanketPreview (logs : List Log) (specificRouteId : Option String) : ℚ :=
  ((affectedRoutesOf logs (some SourceSel.all) specificRouteId).map (fun log =>
    log.weight_kg * getDistance log.origin log.destination
      * lowestFactorAmongAllModes / 1000)).sum
  + ((logs.filter (fun log =>
      ! (affectedRoutesOf logs (some SourceSel.all) specificRouteId).any
        (fun ar => ar.id == log.id))).map emissionsOf).sum

/-- C4: for a blanket request (`source == "all"`, no target), the preview
emissions recompute every affected record with the lowest factor among all
modes of the factor table (which is sea's, applied uniformly), while
unaffected records keep their actual emissions. -/
theorem C4_blanket_optimization_lowest_factor (logs : List Log)
    (rid : Option String) :
    (calculateScenarioImpact logs (some SourceSel.all) none rid).previewEmissions
        = specBlanketPreview logs rid ∧
      lowestFactorAmongAllModes = EMISSION_FACTORS Transport.sea := by
  have hfac : lowestFactorAmongAllModes = EMISSION_FACTORS Transport.sea := by
    norm_num [lowestFactorAmongAllModes, EMISSION_FACTORS]
  refine ⟨?_, hfac⟩
  rw [calcImpact_previewEmissions, previewEmissionsOf_all_none,
    specBlanketPreview, hfac]

/-- C7: a scenario filter that matches no records silently falls back to the
entire record set: the affected list is `logs` itself and the returned
result reports one affected-route summary per record, with no error. -/
theorem C7_empty_selection_falls_back_to_all (logs : List Log)
    (s : Option SourceSel) (t : Option Transport) (rid : Option String)
    (h : logs.filter (scenarioFilter s rid) = []) :
    affectedRoutesOf logs s rid = logs ∧
      (calculateScenarioImpact logs s t rid).affectedRoutes.length
        = logs.length := by
  have ha : affectedRoutesOf logs s rid = logs := by
    rw [affectedRoutesOf_eq, h]
    simp
  exact ⟨ha, by simp [calcImpact_affectedRoutes, ha]⟩

/-- Witness for C7: one air record and a filter asking for sea records —
the filter matches nothing, and the air record is still analyzed. -/
theorem C7_empty_selection_falls_back_to_all_witness :
    [recAir].filter (scenarioFilter (some (SourceSel.mode Transport.sea))
        none) = [] ∧
      (affectedRoutesOf [recAir] (some (SourceSel.mode Transport.sea)) none
          = [recAir] ∧
        (calculateScenarioImpact [recAir] (some (SourceSel.mode Transport.sea))
            none none).affectedRoutes.length = [recAir].length) :=
  ⟨by decide,
    C7_empty_selection_falls_back_to_all [recAir]
      (some (SourceSel.mode Transport.sea)) none none (by decide)⟩

/-- C9: whenever the baseline is positive and the preview emissions are at
least the baseline, the preview score is exactly `0` — every non-improving
scenario is scored `0`, not a graded value. -/
theorem C9_non_improving_scenario_scores_zero (logs : List Log)
    (s : Option SourceSel) (t : Option Transport) (rid : Option String)
    (h0 : 0 < (calculateScenarioImpact logs s t rid).originalEmissions)
    (hle : (calculateScenarioImpact logs s t rid).originalEmissions
      ≤ (calculateScenarioImpact logs s t rid).previewEmissions) :
    (calculateScenarioImpact logs s t rid).previewScore = some 0 := by
  rw [calcImpact_originalEmissions] at h0
  rw [calcImpact_originalEmissions, calcImpact_previewEmissions] at hle
  have hne : previewEmissionsOf logs s t rid ≠ 0 :=
    (lt_of_lt_of_le h0 hle).ne'
  rw [calcImpact_previewScore]
  simp only [previewScoreOf]
  rw [max_eq_right hle]
  rw [jsDiv, if_neg hne]
  rw [Option.map_some']
  rw [div_self hne]
  norm_num

/-- Witness for C9: switching the sample sea record to air strictly
increases emissions, and the score collapses to `0`. -/
theorem C9_non_improving_scenario_scores_zero_witness :
    0 < (calculateScenarioImpact [recSea] none (some Transport.air)
        none).originalEmissions ∧
      (calculateScenarioImpact [recSea] none (some Transport.air)
          none).originalEmissions
        ≤ (calculateScenarioImpact [recSea] none (some Transport.air)
            none).previewEmissions ∧
      (calculateScenarioImpact [recSea] none (some Transport.air)
          none).previewScore = some 0 := by
  have h0 : 0 < (calculateScenarioImpact [recSea] none (some Transport.air)
      none).originalEmissions := by
    simp only [calcImpact_originalEmissions, calculateTotalEmissions,
      List.map_cons, List.map_nil, List.sum_cons, List.sum_nil, emissionsOf,
      recSea, getDistance_shanghai_la, EMISSION_FACTORS]
    norm_num
  have hle : (calculateScenarioImpact [recSea] none (some Transport.air)
      none).originalEmissions
      ≤ (calculateScenarioImpact [recSea] none (some Transport.air)
        none).previewEmissions := by
    rw [calcImpact_originalEmissions, calcImpact_previewEmissions,
      previewEmissionsOf_some]
    have haff : affectedRoutesOf [recSea] none none = [recSea] := by decide
    rw [haff]
    simp only [calculateTotalEmissions, List.map_cons, List.map_nil,
      List.sum_cons, List.sum_nil, emissionsOf, recSea,
      getDistance_shanghai_la, EMISSION_FACTORS]
    norm_num
  exact ⟨h0, hle,
    C9_non_improving_scenario_scores_zero [recSea] none (some Transport.air)
      none h0 hle⟩

/-- C10: a request with no target whose source is not `"all"` is a no-op
preview: the preview emissions equal the baseline and the delta is `0`,
even though records are marked affected. -/
theorem C10_no_target_request_is_noop (logs : List Log)
    (src : Option SourceSel) (rid : Option String)
    (h : src ≠ some SourceSel.all) :
    (calculateScenarioImpact logs src none rid).previewEmissions
        = (calculateScenarioImpact logs src none rid).originalEmissions ∧
      (calculateScenarioImpact logs src none rid).delta = 0 := by
  have hpv : previewEmissionsOf logs src none rid
      = calculateTotalEmissions logs :=
    previewEmissionsOf_none_not_all logs src rid h
  constructor
  · rw [calcImpact_previewEmissions, calcImpact_originalEmissions, hpv]
  · rw [calcImpact_delta]
    unfold deltaOf
    rw [hpv]
    ring

/-- Witness for C10: source `"air"` with no target (as the intent extractor
can produce) on the sample air record changes nothing. -/
theorem C10_no_target_request_is_noop_witness :
    some (SourceSel.mode Transport.air) ≠ some SourceSel.all ∧
      ((calculateScenarioImpact [recAir] (some (SourceSel.mode Transport.air))
            none none).previewEmissions
          = (calculateScenarioImpact [recAir]
              (some (SourceSel.mode Transport.air)) none none).originalEmissions ∧
        (calculateScenarioImpact [recAir] (some (SourceSel.mode Transport.air))
            none none).delta = 0) :=
  ⟨by decide,
    C10_no_target_request_is_noop [recAir]
      (some (SourceSel.mode Transport.air)) none (by decide)⟩

lemma key_length (A B : String) :
    (A ++ dashStr ++ B).length = A.length + B.length + 1 := by
  have h1 : dashStr.length = 1 := rfl
  simp [String.length_append, h1]
  omega

/-- No two keys of the distance table have the same length, so a string can
be a key of the table in at most one way. -/
lemma DISTANCE_LOOKUP_keys_length_distinct :
    ∀ p ∈ DISTANCE_LOOKUP, ∀ q ∈ DISTANCE_LOOKUP,
      p.1.length = q.1.length → p.1 = q.1 := by decide

/-- C6: the distance lookup is symmetric: looking up the ordered pair, then
the reversed pair, then the default constant gives the same distance in
either argument order. -/
theorem C6_distance_lookup_symmetric (A B : String) :
    getDistance A B = getDistance B A := by
  unfold getDistance
  cases h1 : DISTANCE_LOOKUP.lookup (A ++ dashStr ++ B) <;>
    cases h2 : DISTANCE_LOOKUP.lookup (B ++ dashStr ++ A) <;>
    simp [h1, h2]
  rename_i v1 v2
  have m1 := mem_of_lookup_eq_some h1
  have m2 := mem_of_lookup_eq_some h2
  have hlen : (A ++ dashStr ++ B).length = (B ++ dashStr ++ A).length := by
    rw [key_length, key_length]
    omega
  have hkeys : (A ++ dashStr ++ B) = (B ++ dashStr ++ A) :=
    DISTANCE_LOOKUP_keys_length_distinct _ m1 _ m2 hlen
  rw [hkeys] at h1
  rw [h1] at h2
  exact (Option.some.injEq _ _ ▸ h2)

/-- The element type of `findOptimizationOpportunities`. -/
structure Opportunity where
  route : Log
  savings : ℚ
  savingsPercent : Option ℚ

/-- The iteration order of `Object.entries(EMISSION_FACTORS)`. -/
def allTransportModes : List Transport :=
  [Transport.air, Transport.sea, Transport.land]

/-- The body of the `logs.map` in `findOptimizationOpportunities`: fold over
the other modes keeping the lowest alternative emissions (the source updates
a running minimum on strict improvement, which is the same fold). -/
def findOpportunity (log : Log) : Opportunity :=
  let distance := getDistance log.origin log.destination
  let currentEmissions :=
    log.weight_kg * distance * EMISSION_FACTORS log.transport_type / 1000
  let lowestEmissions :=
    (allTransportModes.filter (fun m => decide (m ≠ log.transport_type))).foldl
      (fun low m => min low (log.weight_kg * distance * EMISSION_FACTORS m / 1000))
      currentEmissions
  let savings := currentEmissions - lowestEmissions
  ⟨log, savings, (jsDiv savings currentEmissions).map (fun q => q * 100)⟩

/-- The comparator of the final `.sort((a, b) => b.savings - a.savings)`:
`a` may precede `b` iff `b.savings ≤ a.savings` (descending order). -/
def oppLE (a b : Opportunity) : Bool := decide (b.savings ≤ a.savings)

/-- `findOptimizationOpportunities`: map, filter out non-positive savings,
sort descending by savings. -/
def findOptimizationOpportunities (logs : List Log) : List Opportunity :=
  ((logs.map findOpportunity).filter
    (fun opp => decide (0 < opp.savings))).mergeSort oppLE

/-- The two transport modes other than the given one, in table order. -/
def otherModesOf : Transport → Transport × Transport
  | Transport.air => (Transport.sea, Transport.land)
  | Transport.sea => (Transport.air, Transport.land)
  | Transport.land => (Transport.air, Transport.sea)

/-- Hypothetical emissions of a record under another mode. -/
def altEmissions (log : Log) (m : Transport) : ℚ :=
  log.weight_kg * getDistance log.origin log.destination
    * EMISSION_FACTORS m / 1000

/-- The minimum emissions of a record over the modes other than its own —
the quantity the claim describes the savings against. -/
def minOtherModeEmissions (log : Log) : ℚ :=
  min (altEmissions log (otherModesOf log.transport_type).1)
    (altEmissions log (otherModesOf log.transport_type).2)

lemma findOpportunity_route (log : Log) : (findOpportunity log).route = log := rfl

lemma findOpportunity_savings (log : Log) :
    (findOpportunity log).savings
      = emissionsOf log - min (emissionsOf log) (minOtherModeEmissions log) := by
  obtain ⟨i, o, d, w, tt, ts⟩ := log
  cases tt <;>
    simp [findOpportunity, allTransportModes, minOtherModeEmissions,
      otherModesOf, altEmissions, emissionsOf, min_assoc]

lemma savings_pos_characterization {log : Log}
    (h : 0 < (findOpportunity log).savings) :
    minOtherModeEmissions log < emissionsOf log ∧
      (findOpportunity log).savings
        = emissionsOf log - minOtherModeEmissions log := by
  rw [findOpportunity_savings] at h ⊢
  by_cases hlt : minOtherModeEmissions log < emissionsOf log
  · rw [min_eq_right hlt.le]
    exact ⟨hlt, rfl⟩
  · push_neg at hlt
    rw [min_eq_left hlt, sub_self] at h
    exact absurd h (lt_irrefl 0)

/-- C5: every returned opportunity has strictly positive savings, equal to
the record's current emissions minus the minimum emissions over the other
modes (which is then strictly lower), and the list is sorted in descending
order of savings. -/
theorem C5_opportunities_positive_and_sorted (logs : List Log) :
    (∀ opp ∈ findOptimizationOpportunities logs,
        0 < opp.savings ∧
        minOtherModeEmissions opp.route < emissionsOf opp.route ∧
        opp.savings = emissionsOf opp.route - minOtherModeEmissions opp.route)
      ∧ (findOptimizationOpportunities logs).Pairwise
          (fun a b => b.savings ≤ a.savings) := by
  constructor
  · intro opp hmem
    have hmem0 : opp ∈ ((logs.map findOpportunity).filter
        (fun opp => decide (0 < opp.savings))).mergeSort oppLE := hmem
    have hmem' : opp ∈ (logs.map findOpportunity).filter
        (fun opp => decide (0 < opp.savings)) := List.mem_mergeSort.mp hmem0
    have hp : 0 < opp.savings :=
      of_decide_eq_true (List.mem_filter.mp hmem').2
    obtain ⟨l, _, rfl⟩ := List.mem_map.mp (List.mem_filter.mp hmem').1
    have h2 := savings_pos_characterization hp
    rw [findOpportunity_route]
    exact ⟨hp, h2.1, h2.2⟩
  · have htrans : ∀ a b c : Opportunity,
        oppLE a b = true → oppLE b c = true → oppLE a c = true := by
      intro a b c hab hbc
      simp only [oppLE, decide_eq_true_eq] at hab hbc ⊢
      linarith
    have htotal : ∀ a b : Opportunity, (oppLE a b || oppLE b a) = true := by
      intro a b
      simp only [oppLE, Bool.or_eq_true, decide_eq_true_eq]
      exact le_total b.savings a.savings
    have hs := List.sorted_mergeSort htrans htotal
      ((logs.map findOpportunity).filter (fun opp => decide (0 < opp.savings)))
    simp only [findOptimizationOpportunities]
    exact hs.imp (fun h => by simpa [oppLE] using h)

def whatIfStr : String := "what if"

def switchStr : String := "switch"

def toStr : String := "to"

def changeStr : String := "change"

def replaceStr : String := "replace"

def withStr : String := "with"

def convertStr : String := "convert"

def allStr : String := "all"

def airStr : String := "air"

def seaStr : String := "sea"

def landStr : String := "land"

def seaToStr : String := "sea to"

def toLandStr : String := "to land"

def eliminateStr : String := "eliminate"

def reduceKwStr : String := "reduce"

def improveStr : String := "improve"

def routeKwStr : String := "route"

def shipmentKwStr : String := "shipment"

/-- `pat` occurs as a contiguous substring of `l`
(JavaScript `String.prototype.includes`). -/
def containsList (pat : List Char) : List Char → Bool
  | [] => pat.isEmpty
  | c :: rest => pat.isPrefixOf (c :: rest) || containsList pat rest

def containsStr (s pat : String) : Bool := containsList pat.data s.data

/-- JavaScript line terminators, which `.` in a regex does not match. -/
def isLineTerminator (c : Char) : Bool :=
  c = '\n' || c = '\r' || c = ' ' || c = ' '

/-- Match of the regex fragment `a.*b`: some occurrence of `a` followed by
an occurrence of `b` with no line terminator in between (`.` excludes line
terminators). -/
def seqMatchAux (a b : List Char) : List Char → Bool
  | [] => false
  | c :: rest =>
    (a.isPrefixOf (c :: rest)
        && containsList b
          (((c :: rest).drop a.length).takeWhile (fun ch => ! isLineTerminator ch)))
      || seqMatchAux a b rest

def seqMatch (s a b : String) : Bool := seqMatchAux a.data b.data s.data

/-- The What-If trigger of `detectAndCalculateScenario`: the three regexes
`what if|switch.*to|change.*to|replace.*with|convert.*to`,
`all.*air|all.*sea|all.*land` and `eliminate|reduce|improve`, any of which
may fire. -/
def isWhatIf (input : String) : Bool :=
  (containsStr input whatIfStr || seqMatch input switchStr toStr
      || seqMatch input changeStr toStr || seqMatch input replaceStr withStr
      || seqMatch input convertStr toStr)
    || (seqMatch input allStr airStr || seqMatch input allStr seaStr
      || seqMatch input allStr landStr)
    || (containsStr input eliminateStr || containsStr input reduceKwStr
      || containsStr input improveStr)

/-- The sequential `sourceTransport` assignments of
`detectAndCalculateScenario`: `'air'` if the text contains "air", then
overwritten with `'land'` if the text contains "land" but not "to land". -/
def extractSourceTransport (input : String) : Option SourceSel :=
  let s1 : Option SourceSel :=
    if containsStr input airStr then some (SourceSel.mode Transport.air)
    else none
  if containsStr input landStr then
    (if containsStr input toLandStr then s1
     else some (SourceSel.mode Transport.land))
  else s1

/-- The sequential `targetTransport` assignments of
`detectAndCalculateScenario`: `'sea'` if the text contains "sea" but not
"sea to" anywhere, then overwritten with `'land'` if the text contains
"to land". -/
def extractTargetTransport (input : String) : Option Transport :=
  let t1 : Option Transport :=
    if containsStr input seaStr && ! containsStr input seaToStr then
      some Transport.sea
    else none
  if containsStr input landStr then
    (if containsStr input toLandStr then some Transport.land else t1)
  else t1

/-- JavaScript `\s` restricted to the ASCII whitespace characters (the only
ones that occur in chat input). -/
def isJsWhitespace (c : Char) : Bool :=
  c = ' ' || c = '\t' || c = '\n' || c = '\r' || c = '\u000b' || c = '\u000c'

/-- JavaScript `\w`: ASCII letters, digits and underscore. -/
def isWordChar (c : Char) : Bool := c.isAlphanum || c = '_'

/-- Match of `kw\s+(\w+)` at the start of `l`, returning the captured word:
the literal keyword, one or more whitespace characters, one or more word
characters. -/
def matchIdAfterKeyword (kw l : List Char) : Option (List Char) :=
  if kw.isPrefixOf l then
    let rest := l.drop kw.length
    let ws := rest.takeWhile isJsWhitespace
    if ws.isEmpty then none
    else
      let word := (rest.drop ws.length).takeWhile isWordChar
      if word.isEmpty then none else some word
  else none

/-- Leftmost match of `route\s+(\w+)|shipment\s+(\w+)`: scan positions left
to right, trying the `route` alternative before the `shipment` one. -/
def findRouteIdAux : List Char → Option String
  | [] => none
  | c :: rest =>
    match matchIdAfterKeyword routeKwStr.data (c :: rest) with
    | some w => some (String.mk w)
    | none =>
      match matchIdAfterKeyword shipmentKwStr.data (c :: rest) with
      | some w => some (String.mk w)
      | none => findRouteIdAux rest

def findRouteId (s : String) : Option String := findRouteIdAux s.data

/-- JavaScript `toLowerCase` (simple case mapping; agrees with the full
mapping on the ASCII chat input this code receives). -/
def toLowerStr (s : String) : String := String.mk (s.data.map Char.toLower)

/-- `detectAndCalculateScenario` from `SustainabilityConsultant.tsx`:
lowercase the input, return `null` unless a What-If pattern triggers,
otherwise parse the scenario request and run the calculator.  The source's
`try`/`catch` cannot fire: the embedded computation is total. -/
def detectAndCalculateScenario (userInput : String) (logs : List Log) :
    Option ScenarioResult :=
  let input := toLowerStr userInput
  if isWhatIf input then
    some (calculateScenarioImpact logs (extractSourceTransport input)
      (extractTargetTransport input) (findRouteId input))
  else none

lemma containsList_eq_true_iff (pat l : List Char) :
    containsList pat l = true ↔ pat <:+: l := by
  induction l with
  | nil =>
    simp [containsList, List.isEmpty_iff]
  | cons c rest ih =>
    rw [containsList]
    simp only [Bool.or_eq_true, List.isPrefixOf_iff_prefix, ih]
    constructor
    · rintro (hp | hi)
      · exact hp.isInfix
      · exact hi.trans (List.suffix_cons c rest).isInfix
    · intro h
      rcases List.infix_cons_iff.mp h with hp | hi
      · exact Or.inl hp
      · exact Or.inr hi

lemma containsStr_land_of_toLand {s : String}
    (h : containsStr s toLandStr = true) : containsStr s landStr = true := by
  rw [containsStr, containsList_eq_true_iff] at h ⊢
  have hx : containsList landStr.data toLandStr.data = true := by decide
  exact ((containsList_eq_true_iff _ _).mp hx).trans h

def cexSeaToInput : String := "What if we change sea to air on the sea route"

def seaRouteStr : String := "sea route"

/-- C8 (counterexample): this input triggers intent extraction, contains a
standalone `"sea"` (one immediately followed by `" route"`, so not part of
`"sea to"`), yet because `"sea to"` occurs elsewhere in the text the code
leaves the target unset — the claim says the target should still be
`"sea"`. -/
theorem C8_counterexample :
    isWhatIf (toLowerStr cexSeaToInput) = true ∧
      containsStr (toLowerStr cexSeaToInput) seaStr = true ∧
      containsStr (toLowerStr cexSeaToInput) seaRouteStr = true ∧
      containsStr (toLowerStr cexSeaToInput) seaToStr = true ∧
      extractTargetTransport (toLowerStr cexSeaToInput) = none ∧
      (detectAndCalculateScenario cexSeaToInput []).isSome = true := by decide

/-- C8 (amended): the extracted target is `"sea"` exactly when the
lowercased text contains `"sea"`, does not contain `"sea to"` anywhere in
the text (one occurrence of `"sea to"` suppresses the sea target even if
another standalone `"sea"` occurs), and does not contain `"to land"` (which
would overwrite the target with `"land"`). -/
theorem C8_sea_target_rule (input : String) :
    extractTargetTransport input = some Transport.sea
      ↔ (containsStr input seaStr = true ∧ containsStr input seaToStr = false
          ∧ containsStr input toLandStr = false) := by
  cases h3 : containsStr input toLandStr with
  | true =>
    have h4 : containsStr input landStr = true := containsStr_land_of_toLand h3
    simp [extractTargetTransport, h3, h4]
  | false =>
    cases h1 : containsStr input seaStr <;>
      cases h2 : containsStr input seaToStr <;>
      simp [extractTargetTransport, h1, h2, h3]
